import Mathlib

/-!
Shallow embedding of the Simple-6850-UART-System-with-Arduino driver.

The repository contains two near-identical Arduino sketches:
  * MC6850.ino              (functions setup, loop, writeUart, writeDataBus,
                             initBaudClock, initMC6850, setBusesToOutput)
  * 6850.ino                (functions setup, loop, writeCharToUart, writeDataBus,
                             printStringToUart, blinkLed, initClocks, initUart,
                             setUartPinsToOutput, setDataBusToHighZ)

Each C function only performs a fixed sequence of side effects
(digitalWrite, pinMode, delay, and writes to Timer2 registers).  We embed
every function as the list of those side-effect events, in source order.
A pin-state machine (applyTrace) interprets digitalWrite events, and an
observer (observeWrites) extracts, at each rising-enable event, the level
of the register-select line together with the byte present on the data bus
pins - exactly what the 6850 chip would latch.

Pin constants follow the #define lines of the sketches; the analog pin
names A0..A3 are the Arduino Uno pin numbers 14..17.
-/

/-- Arduino pin number for the baud clock output (#define BAUDCLK 11). -/
def BAUDCLK : Nat := 11

/-- Arduino pin number for the 6850 enable line (#define ENABLE A0, A0 = 14). -/
def ENABLE : Nat := 14

/-- Arduino pin number for the read/write-not line (#define RWN A1, A1 = 15). -/
def RWN : Nat := 15

/-- Arduino pin number for the register-select line (#define RS A2, A2 = 16). -/
def RS : Nat := 16

/-- Arduino pin number for the chip-select line (#define CSN A3 in MC6850.ino,
A3 = 17). -/
def CSN : Nat := 17

/-- Arduino pin number for the chip-select line, as renamed in 6850.ino
(#define CS2N A3). The same physical pin as CSN. -/
def CS2N : Nat := 17

/-- Data bus pin D0 (#define D0 2). -/
def D0 : Nat := 2

/-- Data bus pin D1 (#define D1 3). -/
def D1 : Nat := 3

/-- Data bus pin D2 (#define D2 4). -/
def D2 : Nat := 4

/-- Data bus pin D3 (#define D3 5). -/
def D3 : Nat := 5

/-- Data bus pin D4 (#define D4 6). -/
def D4 : Nat := 6

/-- Data bus pin D5 (#define D5 7). -/
def D5 : Nat := 7

/-- Data bus pin D6 (#define D6 8). -/
def D6 : Nat := 8

/-- Data bus pin D7 (#define D7 9). -/
def D7 : Nat := 9

/-- Onboard LED pin used by 6850.ino (#define LED_OUTPUT 13). -/
def LED_OUTPUT : Nat := 13

/-- Timing constant DELAY_SHORT = 1 ms (6850.ino). -/
def DELAY_SHORT : Nat := 1

/-- Timing constant DELAY_MEDIUM = 50 ms (6850.ino). -/
def DELAY_MEDIUM : Nat := 50

/-- Timing constant DELAY_LONG = 200 ms (6850.ino). -/
def DELAY_LONG : Nat := 200

/-- The three Timer2 hardware registers written by initBaudClock / initClocks. -/
inductive TimerReg where
  | tccr2a
  | tccr2b
  | ocr2a
deriving DecidableEq

/-- One observable side effect of the sketches: a digitalWrite to a pin,
a pinMode direction change (true = OUTPUT, false = INPUT), a blocking
delay in milliseconds, or a store to a Timer2 register. -/
inductive Event where
  | dw (pin : Nat) (level : Bool)
  | pm (pin : Nat) (out : Bool)
  | delay (ms : Nat)
  | treg (reg : TimerReg) (val : Nat)
deriving DecidableEq

/-- Arduino bitRead(value, bit) = ((value) >> (bit)) & 0x01 for a C int.
On AVR-GCC, >> on a negative int is an arithmetic shift, i.e. floor
division by 2^bit, and & 1 then yields bit i of the twos-complement
representation; the Int division and remainder of Lean are Euclidean
(floor for a positive divisor), so this is exactly (value / 2 ^ bit) % 2. -/
def bitRead (value : Int) (bit : Nat) : Bool :=
  (value / 2 ^ bit) % 2 == 1

/-- Trace of writeDataBus(data): one digitalWrite per data bus line,
line i driven to bit i of data (identical in both sketches). -/
def writeDataBusTrace (data : Int) : List Event :=
  [ .dw D0 (bitRead data 0)
  , .dw D1 (bitRead data 1)
  , .dw D2 (bitRead data 2)
  , .dw D3 (bitRead data 3)
  , .dw D4 (bitRead data 4)
  , .dw D5 (bitRead data 5)
  , .dw D6 (bitRead data 6)
  , .dw D7 (bitRead data 7) ]

/-- Trace of writeUart(data) from MC6850.ino: delays interleave the control
line writes; data register selected (RS HIGH); enable pulsed last. -/
def writeUartTrace (data : Int) : List Event :=
  [ .delay 1
  , .dw ENABLE false
  , .delay 1
  , .dw RWN false
  , .delay 1
  , .dw RS true
  , .delay 1
  , .dw CSN true
  , .delay 1 ]
  ++ writeDataBusTrace data
  ++ [ .dw CSN false
     , .delay 1
     , .dw ENABLE true
     , .delay 1 ]

/-- Trace of writeCharToUart(data) from 6850.ino (same protocol as
writeUart, with the first delay after rather than before the ENABLE
write, and DELAY_SHORT as the settling time). -/
def writeCharToUartTrace (data : Int) : List Event :=
  [ .dw ENABLE false
  , .delay DELAY_SHORT
  , .dw RWN false
  , .delay DELAY_SHORT
  , .dw RS true
  , .delay DELAY_SHORT
  , .dw CS2N true
  , .delay DELAY_SHORT ]
  ++ writeDataBusTrace data
  ++ [ .dw CS2N false
     , .delay DELAY_SHORT
     , .dw ENABLE true
     , .delay DELAY_SHORT ]

/-- Trace of initMC6850() from MC6850.ino: control register selected
(RS LOW), the eight data lines driven pinwise to the fixed configuration
pattern D0=1 D1=0 D2=1 D3=0 D4=1 D5=0 D6=0 D7=0, enable pulsed last. -/
def initMC6850Trace : List Event :=
  [ .delay 1
  , .dw ENABLE false
  , .delay 1
  , .dw RWN false
  , .delay 1
  , .dw RS false
  , .delay 1
  , .dw CSN true
  , .delay 1
  , .dw D0 true
  , .dw D1 false
  , .dw D2 true
  , .dw D3 false
  , .dw D4 true
  , .dw D5 false
  , .dw D6 false
  , .dw D7 false
  , .dw CSN false
  , .delay 1
  , .dw ENABLE true
  , .delay 1 ]

/-- Trace of blinkLed() from 6850.ino: four HIGH/LOW cycles on the
onboard LED with DELAY_LONG pauses. -/
def blinkLedTrace : List Event :=
  (List.replicate 4
    [ Event.dw LED_OUTPUT true
    , Event.delay DELAY_LONG
    , Event.dw LED_OUTPUT false
    , Event.delay DELAY_LONG ]).flatten

/-- Trace of initUart() from 6850.ino: same control-register write protocol
as initMC6850, with the payload written via writeDataBus(0b00010101), and
a blinkLed() call at the end. -/
def initUartTrace : List Event :=
  [ .delay DELAY_SHORT
  , .dw ENABLE false
  , .delay DELAY_SHORT
  , .dw RWN false
  , .delay DELAY_SHORT
  , .dw RS false
  , .delay DELAY_SHORT
  , .dw CS2N true
  , .delay DELAY_SHORT ]
  ++ writeDataBusTrace 0b00010101
  ++ [ .dw CS2N false
     , .delay DELAY_SHORT
     , .dw ENABLE true
     , .delay DELAY_SHORT ]
  ++ blinkLedTrace

/-- Value stored to OCR2A by initBaudClock / initClocks (OCR2A = 51). -/
def timer2ToggleCount : Nat := 51

/-- Timer2 prescaler selected by TCCR2B = 0b00001001: clock-select bits
CS22:0 = 001, i.e. the timer counts at the full CPU clock (prescaler 1). -/
def timer2Prescaler : Nat := 1

/-- Trace of initBaudClock() from MC6850.ino: the three Timer2 register
stores (TCCR2A = 0b01000011, TCCR2B = 0b00001001, OCR2A = 51). -/
def initBaudClockTrace : List Event :=
  [ .treg .tccr2a 0b01000011
  , .treg .tccr2b 0b00001001
  , .treg .ocr2a timer2ToggleCount ]

/-- Trace of initClocks() from 6850.ino (identical register stores). -/
def initClocksTrace : List Event :=
  [ .treg .tccr2a 0b01000011
  , .treg .tccr2b 0b00001001
  , .treg .ocr2a timer2ToggleCount ]

/-- Trace of setBusesToOutput() from MC6850.ino: each bus pin direction
set to OUTPUT once, in source order. -/
def setBusesToOutputTrace : List Event :=
  [ .pm D0 true
  , .pm D1 true
  , .pm D2 true
  , .pm D3 true
  , .pm D4 true
  , .pm D5 true
  , .pm D6 true
  , .pm D7 true
  , .pm RS true
  , .pm RWN true
  , .pm ENABLE true
  , .pm BAUDCLK true
  , .pm CSN true ]

/-- Trace of setUartPinsToOutput() from 6850.ino (identical to
setBusesToOutput, with the chip-select pin under its CS2N name). -/
def setUartPinsToOutputTrace : List Event :=
  [ .pm D0 true
  , .pm D1 true
  , .pm D2 true
  , .pm D3 true
  , .pm D4 true
  , .pm D5 true
  , .pm D6 true
  , .pm D7 true
  , .pm RS true
  , .pm RWN true
  , .pm ENABLE true
  , .pm BAUDCLK true
  , .pm CS2N true ]

/-- Trace of setDataBusToHighZ() from 6850.ino (present in the source but
never called). -/
def setDataBusToHighZTrace : List Event :=
  [ .pm D0 false
  , .pm D1 false
  , .pm D2 false
  , .pm D3 false
  , .pm D4 false
  , .pm D5 false
  , .pm D6 false
  , .pm D7 false ]

/-- Trace of setup() from MC6850.ino: setBusesToOutput, then
initBaudClock, then initMC6850. -/
def setupTrace : List Event :=
  setBusesToOutputTrace ++ initBaudClockTrace ++ initMC6850Trace

/-- Trace of one iteration of loop() from MC6850.ino: the eight characters
of "TESTACIA" sent via writeUart, then delay(100). -/
def loopTrace : List Event :=
  writeUartTrace 84
  ++ writeUartTrace 69
  ++ writeUartTrace 83
  ++ writeUartTrace 84
  ++ writeUartTrace 65
  ++ writeUartTrace 67
  ++ writeUartTrace 73
  ++ writeUartTrace 65
  ++ [ .delay 100 ]

/-- The PROGMEM test string of 6850.ino: const char testString[] = "TESTACIA". -/
def testString : String := "TESTACIA"

/-- Trace of printStringToUart(str) from 6850.ino: one writeCharToUart per
character of the string, in order. -/
def printStringToUartTrace (str : String) : List Event :=
  (str.toList.map (fun c => writeCharToUartTrace ((c.toNat : Int)))).flatten

/-- Trace of setup() from 6850.ino: pinMode(LED_OUTPUT, OUTPUT), then
setUartPinsToOutput, initClocks, initUart. -/
def setup2Trace : List Event :=
  [ .pm LED_OUTPUT true ] ++ setUartPinsToOutputTrace ++ initClocksTrace ++ initUartTrace

/-- Trace of one iteration of loop() from 6850.ino: printStringToUart of
the test string, an LED blink, then delay(1000). -/
def loop2Trace : List Event :=
  printStringToUartTrace testString
  ++ [ .dw LED_OUTPUT true
     , .delay DELAY_MEDIUM
     , .dw LED_OUTPUT false
     , .delay 1000 ]

/-- Trace of n iterations of the MC6850.ino loop. -/
def loopsTrace (n : Nat) : List Event :=
  (List.replicate n loopTrace).flatten

/-- Trace of n iterations of the 6850.ino loop. -/
def loops2Trace (n : Nat) : List Event :=
  (List.replicate n loop2Trace).flatten

/-- Full execution trace of MC6850.ino: setup once, then n loop iterations. -/
def programTrace (n : Nat) : List Event :=
  setupTrace ++ loopsTrace n

/-- Full execution trace of 6850.ino: setup once, then n loop iterations. -/
def program2Trace (n : Nat) : List Event :=
  setup2Trace ++ loops2Trace n

/-- Pin-level state: the digital level currently driven on each pin. -/
def PinState : Type := Nat → Bool

/-- Effect of one event on the pin levels: a digitalWrite updates its pin,
every other event leaves the levels unchanged. -/
def applyEvent (s : PinState) : Event → PinState
  | .dw p l => fun q => if q = p then l else s q
  | _ => s

/-- Effect of a whole trace on the pin levels. -/
def applyTrace (tr : List Event) (s : PinState) : PinState :=
  tr.foldl applyEvent s

/-- The byte formed by the eight data bus lines D0..D7, D0 least significant. -/
def busByte (s : PinState) : Nat :=
  (cond (s D0) 1 0)
  + 2 * cond (s D1) 1 0
  + 4 * cond (s D2) 1 0
  + 8 * cond (s D3) 1 0
  + 16 * cond (s D4) 1 0
  + 32 * cond (s D5) 1 0
  + 64 * cond (s D6) 1 0
  + 128 * cond (s D7) 1 0

/-- Recognizer for the rising edge of the enable line: a digitalWrite of
HIGH to the ENABLE pin (the edge the 6850 latches data on). -/
def isEnablePulse : Event → Bool
  | .dw p l => p == ENABLE && l
  | _ => false

/-- Observation of a trace as a list of latched register writes: at each
enable pulse, record the level of the register-select line (false =
control register, true = data register) and the byte on the data bus,
both as they stand at the moment of the pulse. -/
def observeWrites : PinState → List Event → List (Bool × Nat)
  | _, [] => []
  | s, e :: tr =>
    if isEnablePulse e then
      (s RS, busByte s) :: observeWrites (applyEvent s e) tr
    else
      observeWrites (applyEvent s e) tr

/-- The pins a trace ever writes with digitalWrite. -/
def touchedPins (tr : List Event) : List Nat :=
  tr.filterMap (fun e => match e with | .dw p _ => some p | _ => none)

/-- Recognizer for pinMode (direction-configuration) events. -/
def isPinModeEvent : Event → Bool
  | .pm _ _ => true
  | _ => false

/-- The thirteen bus lines of the driver: the eight data lines, register
select, read/write, enable, baud clock output, and chip select. -/
def busPins : List Nat :=
  [D0, D1, D2, D3, D4, D5, D6, D7, RS, RWN, ENABLE, BAUDCLK, CSN]

/-- Timer2 input clock on an Arduino Uno/Nano: the 16 MHz system clock. -/
def timerClockFreq : ℚ := 16000000

/-- Frequency of the square wave generated by the Timer2 configuration:
the counter counts (toggleCount + 1) ticks per output toggle, two toggles
per period, at the prescaled system clock. -/
def generatedClockFreq : ℚ :=
  timerClockFreq / (timer2Prescaler * (2 * (timer2ToggleCount + 1)))

/-- The ideal 16x oversampling clock for 9600 baud: 16 * 9600 Hz. -/
def idealClockFreq : ℚ := 16 * 9600

/-- Stateful run of one top-level send operation (printStringToUart):
from machine state s it emits the trace of the call and leaves the pins
in the state the trace produces.  The emitted trace is a function of the
message alone - the driver never reads a pin - which the statelessness
theorem below makes explicit. -/
def runPrintString (s : PinState) (str : String) : List Event × PinState :=
  (printStringToUartTrace str, applyTrace (printStringToUartTrace str) s)

/-- Stateful run of one writeUart call, analogous to runPrintString. -/
def runWriteUart (s : PinState) (data : Int) : List Event × PinState :=
  (writeUartTrace data, applyTrace (writeUartTrace data) s)

/-! ## Helper lemmas -/

theorem applyTrace_nil (s : PinState) : applyTrace [] s = s := rfl

theorem applyTrace_cons (e : Event) (tr : List Event) (s : PinState) :
    applyTrace (e :: tr) s = applyTrace tr (applyEvent s e) := rfl

theorem applyTrace_append (a b : List Event) (s : PinState) :
    applyTrace (a ++ b) s = applyTrace b (applyTrace a s) :=
  List.foldl_append applyEvent s a b

theorem observeWrites_nil (s : PinState) : observeWrites s [] = [] := rfl

theorem observeWrites_append (a b : List Event) (s : PinState) :
    observeWrites s (a ++ b)
      = observeWrites s a ++ observeWrites (applyTrace a s) b := by
  induction a generalizing s with
  | nil => rfl
  | cons e tr ih =>
    by_cases h : isEnablePulse e = true
    · simp [observeWrites, h, ih, applyTrace_cons]
    · simp [observeWrites, h, ih, applyTrace_cons]

theorem applyTrace_not_touched (tr : List Event) (s : PinState) (p : Nat)
    (h : p ∉ touchedPins tr) : applyTrace tr s p = s p := by
  induction tr generalizing s with
  | nil => rfl
  | cons e rest ih =>
    match e with
    | .dw q l =>
      have hq : p ≠ q := by
        intro hpq
        exact h (by simp [touchedPins, hpq])
      have h2 : p ∉ touchedPins rest := by
        intro hmem
        exact h (by simp [touchedPins] at hmem ⊢; exact Or.inr hmem)
      simp only [applyTrace_cons, applyEvent]
      rw [ih _ h2]
      simp [hq]
    | .pm q b =>
      have h2 : p ∉ touchedPins rest := by
        intro hmem
        exact h (by simpa [touchedPins] using hmem)
      simpa only [applyTrace_cons, applyEvent] using ih _ h2
    | .delay m =>
      have h2 : p ∉ touchedPins rest := by
        intro hmem
        exact h (by simpa [touchedPins] using hmem)
      simpa only [applyTrace_cons, applyEvent] using ih _ h2
    | .treg r v =>
      have h2 : p ∉ touchedPins rest := by
        intro hmem
        exact h (by simpa [touchedPins] using hmem)
      simpa only [applyTrace_cons, applyEvent] using ih _ h2

theorem bitRead_natCast (v : Nat) (i : Nat) :
    bitRead (v : Int) i = v.testBit i := by
  rw [Nat.testBit_to_div_mod, bitRead]
  have h : ((v : Int) / 2 ^ i) % 2 = ((v / 2 ^ i % 2 : Nat) : Int) := by
    push_cast
    rfl
  rw [h]
  rcases Nat.mod_two_eq_zero_or_one (v / 2 ^ i) with h0 | h1
  · simp [h0]
  · simp [h1]

/-- The byte that writeDataBus(d) leaves on the data bus: bit i of d on
line i, assembled with D0 least significant. -/
def byteOf (d : Int) : Nat :=
  cond (bitRead d 0) 1 0
  + 2 * cond (bitRead d 1) 1 0
  + 4 * cond (bitRead d 2) 1 0
  + 8 * cond (bitRead d 3) 1 0
  + 16 * cond (bitRead d 4) 1 0
  + 32 * cond (bitRead d 5) 1 0
  + 64 * cond (bitRead d 6) 1 0
  + 128 * cond (bitRead d 7) 1 0

theorem obs_writeUart (s : PinState) (d : Int) :
    observeWrites s (writeUartTrace d) = [(true, byteOf d)] := by
  simp [writeUartTrace, writeDataBusTrace, observeWrites, applyEvent, isEnablePulse,
    busByte, byteOf, ENABLE, RS, CSN, RWN, D0, D1, D2, D3, D4, D5, D6, D7]

theorem obs_writeCharToUart (s : PinState) (d : Int) :
    observeWrites s (writeCharToUartTrace d) = [(true, byteOf d)] := by
  simp [writeCharToUartTrace, writeDataBusTrace, observeWrites, applyEvent, isEnablePulse,
    busByte, byteOf, ENABLE, RS, CS2N, RWN, D0, D1, D2, D3, D4, D5, D6, D7]

theorem obs_initMC6850 (s : PinState) :
    observeWrites s initMC6850Trace = [(false, 21)] := by
  simp [initMC6850Trace, observeWrites, applyEvent, isEnablePulse,
    busByte, ENABLE, RS, CSN, RWN, D0, D1, D2, D3, D4, D5, D6, D7]

theorem obs_initUart (s : PinState) :
    observeWrites s initUartTrace = [(false, 21)] := by
  simp [initUartTrace, blinkLedTrace, writeDataBusTrace, observeWrites, applyEvent,
    isEnablePulse, busByte, bitRead,
    ENABLE, RS, CS2N, RWN, D0, D1, D2, D3, D4, D5, D6, D7, LED_OUTPUT,
    DELAY_SHORT, DELAY_LONG, List.replicate]

theorem obs_setBusesToOutput (s : PinState) :
    observeWrites s setBusesToOutputTrace = [] := by
  simp [setBusesToOutputTrace, observeWrites, isEnablePulse]

theorem obs_setUartPinsToOutput (s : PinState) :
    observeWrites s setUartPinsToOutputTrace = [] := by
  simp [setUartPinsToOutputTrace, observeWrites, isEnablePulse]

theorem obs_initBaudClock (s : PinState) :
    observeWrites s initBaudClockTrace = [] := by
  simp [initBaudClockTrace, observeWrites, isEnablePulse]

theorem obs_initClocks (s : PinState) :
    observeWrites s initClocksTrace = [] := by
  simp [initClocksTrace, observeWrites, isEnablePulse]

theorem obs_setup (s : PinState) :
    observeWrites s setupTrace = [(false, 21)] := by
  rw [setupTrace, observeWrites_append, observeWrites_append,
    obs_setBusesToOutput, obs_initBaudClock, obs_initMC6850]
  rfl

theorem obs_setup2 (s : PinState) :
    observeWrites s setup2Trace = [(false, 21)] := by
  rw [setup2Trace, observeWrites_append, observeWrites_append, observeWrites_append,
    obs_setUartPinsToOutput, obs_initClocks, obs_initUart]
  rfl

theorem obs_flatten_map_writeChar (ds : List Int) (s : PinState) :
    observeWrites s ((ds.map writeCharToUartTrace).flatten)
      = ds.map (fun d => (true, byteOf d)) := by
  induction ds generalizing s with
  | nil => rfl
  | cons d rest ih =>
    simp only [List.map_cons, List.flatten_cons, observeWrites_append,
      obs_writeCharToUart, ih]
    rfl

theorem obs_printString (s : PinState) (str : String) :
    observeWrites s (printStringToUartTrace str)
      = str.toList.map (fun c => (true, byteOf ((c.toNat : Int)))) := by
  have h : str.toList.map (fun c => writeCharToUartTrace ((c.toNat : Int)))
      = (str.toList.map (fun c => (c.toNat : Int))).map writeCharToUartTrace := by
    rw [List.map_map]
    rfl
  rw [printStringToUartTrace, h, obs_flatten_map_writeChar, List.map_map]
  rfl

theorem byteOf_84 : byteOf 84 = 84 := by decide

theorem byteOf_69 : byteOf 69 = 69 := by decide

theorem byteOf_83 : byteOf 83 = 83 := by decide

theorem byteOf_65 : byteOf 65 = 65 := by decide

theorem byteOf_67 : byteOf 67 = 67 := by decide

theorem byteOf_73 : byteOf 73 = 73 := by decide

/-- The register-write transactions the 6850 observes during one loop
iteration: the eight ASCII codes of "TESTACIA", each latched into the
data register. -/
def loopObs : List (Bool × Nat) :=
  [(true, 84), (true, 69), (true, 83), (true, 84),
   (true, 65), (true, 67), (true, 73), (true, 65)]

theorem obs_loop (s : PinState) : observeWrites s loopTrace = loopObs := by
  simp only [loopTrace, observeWrites_append, obs_writeUart,
    byteOf_84, byteOf_69, byteOf_83, byteOf_65, byteOf_67, byteOf_73]
  rfl

theorem obs_loop2 (s : PinState) : observeWrites s loop2Trace = loopObs := by
  simp only [loop2Trace, observeWrites_append, obs_printString]
  norm_num [observeWrites, isEnablePulse, applyEvent, testString, LED_OUTPUT, ENABLE,
    loopObs]
  all_goals decide

theorem obs_loops (n : Nat) (s : PinState) :
    observeWrites s (loopsTrace n) = (List.replicate n loopObs).flatten := by
  induction n generalizing s with
  | zero => rfl
  | succ m ih =>
    simp only [loopsTrace, List.replicate_succ, List.flatten_cons,
      observeWrites_append, obs_loop]
    rw [show (List.replicate m loopTrace).flatten = loopsTrace m from rfl, ih]

theorem obs_loops2 (n : Nat) (s : PinState) :
    observeWrites s (loops2Trace n) = (List.replicate n loopObs).flatten := by
  induction n generalizing s with
  | zero => rfl
  | succ m ih =>
    simp only [loops2Trace, List.replicate_succ, List.flatten_cons,
      observeWrites_append, obs_loop2]
    rw [show (List.replicate m loop2Trace).flatten = loops2Trace m from rfl, ih]

/-! ## Claim theorems -/

/-- Claim C1: for every value v in [0,255], the data-register write
operation (writeUart / writeCharToUart, via writeDataBus) drives data
line i (pin 2 + i) to bit i of v, least-significant bit on the
lowest-numbered line, and these are the line states at the moment the
enable line is pulsed: the trace up to the enable pulse (the first 19
events of writeUart, 18 of writeCharToUart) leaves data line i at
bit i of v, from any starting pin state. -/
theorem writeUart_dataBus_bits_at_enable (v : Nat) (hv : v < 256)
    (s : PinState) (i : Nat) (hi : i < 8) :
    (writeUartTrace (v : Int)).drop 19 = [Event.dw ENABLE true, Event.delay 1]
    ∧ applyTrace ((writeUartTrace (v : Int)).take 19) s (2 + i) = v.testBit i
    ∧ (writeCharToUartTrace (v : Int)).drop 18 = [Event.dw ENABLE true, Event.delay 1]
    ∧ applyTrace ((writeCharToUartTrace (v : Int)).take 18) s (2 + i) = v.testBit i := by
  refine ⟨rfl, ?_, rfl, ?_⟩ <;>
  · interval_cases i <;>
      simp [writeUartTrace, writeCharToUartTrace, writeDataBusTrace, applyTrace, applyEvent,
        bitRead_natCast, ENABLE, RWN, RS, CSN, CS2N, D0, D1, D2, D3, D4, D5, D6, D7]

theorem writeUart_dataBus_bits_at_enable_witness :
    3 < 256 ∧ 0 < 8
    ∧ ((writeUartTrace ((3 : Nat) : Int)).drop 19 = [Event.dw ENABLE true, Event.delay 1]
       ∧ applyTrace ((writeUartTrace ((3 : Nat) : Int)).take 19) (fun _ => false) (2 + 0) = Nat.testBit 3 0
       ∧ (writeCharToUartTrace ((3 : Nat) : Int)).drop 18 = [Event.dw ENABLE true, Event.delay 1]
       ∧ applyTrace ((writeCharToUartTrace ((3 : Nat) : Int)).take 18) (fun _ => false) (2 + 0) = Nat.testBit 3 0) :=
  ⟨by decide, by decide,
    writeUart_dataBus_bits_at_enable 3 (by decide) (fun _ => false) 0 (by decide)⟩

/-- The digitalWrite events of a trace that target one of the thirteen
bus lines (LED writes and non-write events are not bus line changes). -/
def busWrites (tr : List Event) : List Event :=
  tr.filter fun e => match e with
    | .dw p _ => decide (p ∈ busPins)
    | _ => false

/-- Claim C2: every register-write operation (writeUart, writeCharToUart,
initMC6850, initUart) changes the bus lines in this exact order: the
select lines (enable-inactive, read/write, register-select), then
chip-select to its addressed level, then the eight data-bus lines, then
chip-select back to not-addressed, then the enable pulse - so chip-select
is asserted before the data lines are driven and released before enable
is pulsed, and every write between chip-select-on and chip-select-off
targets a data line (pin 2 + i, bit i of the payload). -/
theorem register_write_line_order (d : Int) :
    busWrites (writeUartTrace d)
      = [Event.dw ENABLE false, Event.dw RWN false, Event.dw RS true, Event.dw CSN true]
        ++ writeDataBusTrace d
        ++ [Event.dw CSN false, Event.dw ENABLE true]
    ∧ busWrites (writeCharToUartTrace d)
      = [Event.dw ENABLE false, Event.dw RWN false, Event.dw RS true, Event.dw CS2N true]
        ++ writeDataBusTrace d
        ++ [Event.dw CS2N false, Event.dw ENABLE true]
    ∧ busWrites initMC6850Trace
      = [Event.dw ENABLE false, Event.dw RWN false, Event.dw RS false, Event.dw CSN true]
        ++ [Event.dw D0 true, Event.dw D1 false, Event.dw D2 true, Event.dw D3 false,
            Event.dw D4 true, Event.dw D5 false, Event.dw D6 false, Event.dw D7 false]
        ++ [Event.dw CSN false, Event.dw ENABLE true]
    ∧ busWrites initUartTrace
      = [Event.dw ENABLE false, Event.dw RWN false, Event.dw RS false, Event.dw CS2N true]
        ++ writeDataBusTrace 0b00010101
        ++ [Event.dw CS2N false, Event.dw ENABLE true]
    ∧ (∀ e ∈ writeDataBusTrace d, ∃ i, i < 8 ∧ e = Event.dw (2 + i) (bitRead d i)) := by
  refine ⟨?_, ?_, ?_, ?_, ?_⟩
  · simp [busWrites, writeUartTrace, writeDataBusTrace, busPins,
      ENABLE, RWN, RS, CSN, CS2N, D0, D1, D2, D3, D4, D5, D6, D7, BAUDCLK]
  · simp [busWrites, writeCharToUartTrace, writeDataBusTrace, busPins,
      ENABLE, RWN, RS, CSN, CS2N, D0, D1, D2, D3, D4, D5, D6, D7, BAUDCLK]
  · simp [busWrites, initMC6850Trace, busPins,
      ENABLE, RWN, RS, CSN, CS2N, D0, D1, D2, D3, D4, D5, D6, D7, BAUDCLK]
  · simp [busWrites, initUartTrace, writeDataBusTrace, blinkLedTrace, busPins, bitRead,
      ENABLE, RWN, RS, CSN, CS2N, D0, D1, D2, D3, D4, D5, D6, D7, BAUDCLK, LED_OUTPUT,
      List.replicate]
  · intro e he
    simp only [writeDataBusTrace, D0, D1, D2, D3, D4, D5, D6, D7,
      List.mem_cons, List.not_mem_nil, or_false] at he
    rcases he with h | h | h | h | h | h | h | h <;> subst h
    · exact ⟨0, by omega, rfl⟩
    · exact ⟨1, by omega, rfl⟩
    · exact ⟨2, by omega, rfl⟩
    · exact ⟨3, by omega, rfl⟩
    · exact ⟨4, by omega, rfl⟩
    · exact ⟨5, by omega, rfl⟩
    · exact ⟨6, by omega, rfl⟩
    · exact ⟨7, by omega, rfl⟩

/-- Claim C3: one start-up followed by one iteration of the transmit loop
issues exactly one control-register write (register-select low) followed
by exactly eight data-register writes (register-select high) with
payloads 0x54,0x45,0x53,0x54,0x41,0x43,0x49,0x41 in that order and no
control-register write among them - in both sketch variants, from any
initial pin state. -/
theorem startup_plus_one_loop_transactions (s : PinState) :
    observeWrites s (setupTrace ++ loopTrace) = (false, 21) :: loopObs
    ∧ observeWrites s (setup2Trace ++ loop2Trace) = (false, 21) :: loopObs
    ∧ loopObs = [(true, 0x54), (true, 0x45), (true, 0x53), (true, 0x54),
                 (true, 0x41), (true, 0x43), (true, 0x49), (true, 0x41)] := by
  refine ⟨?_, ?_, rfl⟩
  · rw [observeWrites_append, obs_setup, obs_loop]
    rfl
  · rw [observeWrites_append, obs_setup2, obs_loop2]
    rfl

/-- Claim C4: in every execution (setup followed by any number n of loop
iterations, in either sketch variant), the chip-configuration operation
runs exactly once - the whole trace decomposes as direction setup, then
clock-generator initialization, then the configuration write, then the
loops - and the observed register writes are exactly one control-register
write (the head) followed only by data-register writes, so configuration
happens strictly after clock initialization and strictly before the
first data-register write. -/
theorem configure_once_after_clock_before_data (n : Nat) (s : PinState) :
    programTrace n
      = setBusesToOutputTrace ++ initBaudClockTrace ++ (initMC6850Trace ++ loopsTrace n)
    ∧ observeWrites s (programTrace n) = (false, 21) :: (List.replicate n loopObs).flatten
    ∧ program2Trace n
      = [Event.pm LED_OUTPUT true] ++ setUartPinsToOutputTrace ++ initClocksTrace
        ++ (initUartTrace ++ loops2Trace n)
    ∧ observeWrites s (program2Trace n) = (false, 21) :: (List.replicate n loopObs).flatten
    ∧ (∀ x ∈ (List.replicate n loopObs).flatten, x.1 = true) := by
  refine ⟨?_, ?_, ?_, ?_, ?_⟩
  · simp [programTrace, setupTrace, List.append_assoc]
  · rw [programTrace, observeWrites_append, obs_setup, obs_loops]
    rfl
  · simp [program2Trace, setup2Trace, List.append_assoc]
  · rw [program2Trace, observeWrites_append, obs_setup2, obs_loops2]
    rfl
  · intro x hx
    obtain ⟨l, hl, hx2⟩ := List.mem_flatten.1 hx
    rw [List.eq_of_mem_replicate hl] at hx2
    exact (by decide : ∀ y ∈ loopObs, y.1 = true) x hx2

/-- Claim C5: the chip-configuration operation performs exactly one
control-register write, and its 8-bit payload is 0b00010101 = 21:
bits 1:0 = 01 (divide-by-16 clock), bits 4:2 = 101 (8 data bits, no
parity, 1 stop bit), bits 6:5 = 00 (transmit interrupt disabled,
request-to-send driven low/active), bit 7 = 0 (receive interrupt
disabled) - in both sketch variants, from any pin state. -/
theorem config_register_payload (s : PinState) :
    observeWrites s initMC6850Trace = [(false, 0b00010101)]
    ∧ observeWrites s initUartTrace = [(false, 0b00010101)]
    ∧ (0b00010101 : Nat) % 4 = 1
    ∧ (0b00010101 : Nat) / 4 % 8 = 5
    ∧ (0b00010101 : Nat) / 32 % 4 = 0
    ∧ (0b00010101 : Nat) / 128 % 2 = 0 :=
  ⟨obs_initMC6850 s, obs_initUart s, by decide, by decide, by decide, by decide⟩

/-- Claim C6: with the programmed toggle count 51 (stored to OCR2A by the
clock initialization in both variants) and prescaler 1, the generated
clock frequency 16 MHz / (2 * (51 + 1)) = 153.85 kHz deviates from the
ideal 16 * 9600 Hz = 153.6 kHz by a relative error below 1%, hence below
the 2% tolerance. -/
theorem baud_clock_relative_error_small :
    Event.treg TimerReg.ocr2a timer2ToggleCount ∈ initBaudClockTrace
    ∧ Event.treg TimerReg.ocr2a timer2ToggleCount ∈ initClocksTrace
    ∧ generatedClockFreq = timerClockFreq / (2 * (timer2ToggleCount + 1))
    ∧ |generatedClockFreq - idealClockFreq| / idealClockFreq < 1 / 100
    ∧ |generatedClockFreq - idealClockFreq| / idealClockFreq < 2 / 100 := by
  have hval : generatedClockFreq - idealClockFreq = 3200 / 13 := by
    norm_num [generatedClockFreq, idealClockFreq, timerClockFreq,
      timer2Prescaler, timer2ToggleCount]
  refine ⟨?_, ?_, ?_, ?_, ?_⟩
  · simp [initBaudClockTrace]
  · simp [initClocksTrace]
  · norm_num [generatedClockFreq, timer2Prescaler]
  · rw [hval, abs_of_pos (by norm_num)]
    norm_num [idealClockFreq]
  · rw [hval, abs_of_pos (by norm_num)]
    norm_num [idealClockFreq]

set_option maxRecDepth 4000 in
theorem pm_free_loopTrace : ∀ e ∈ loopTrace, isPinModeEvent e = false := by decide

set_option maxRecDepth 4000 in
theorem pm_free_loop2Trace : ∀ e ∈ loop2Trace, isPinModeEvent e = false := by decide

theorem pm_free_loops (n : Nat) : ∀ e ∈ loopsTrace n, isPinModeEvent e = false := by
  intro e he
  rw [loopsTrace] at he
  obtain ⟨l, hl, hel⟩ := List.mem_flatten.1 he
  rw [List.eq_of_mem_replicate hl] at hel
  exact pm_free_loopTrace e hel

theorem pm_free_loops2 (n : Nat) : ∀ e ∈ loops2Trace n, isPinModeEvent e = false := by
  intro e he
  rw [loops2Trace] at he
  obtain ⟨l, hl, hel⟩ := List.mem_flatten.1 he
  rw [List.eq_of_mem_replicate hl] at hel
  exact pm_free_loop2Trace e hel

theorem count_pm_loops_zero (n : Nat) (p : Nat) :
    (loopsTrace n).count (Event.pm p true) = 0 :=
  List.count_eq_zero.2 fun hmem => by
    simpa [isPinModeEvent] using pm_free_loops n _ hmem

theorem count_pm_loops2_zero (n : Nat) (p : Nat) :
    (loops2Trace n).count (Event.pm p true) = 0 :=
  List.count_eq_zero.2 fun hmem => by
    simpa [isPinModeEvent] using pm_free_loops2 n _ hmem

/-- Claim C7: in every execution (setup then n loop iterations, either
variant), each of the thirteen bus lines has its direction configured to
output exactly once; all direction configuration happens in the leading
direction-setup block, before any register transfer, and no later event
ever changes a direction again. -/
theorem bus_direction_configured_once (n : Nat) :
    programTrace n
      = setBusesToOutputTrace ++ (initBaudClockTrace ++ initMC6850Trace ++ loopsTrace n)
    ∧ (∀ e ∈ setBusesToOutputTrace, isPinModeEvent e = true)
    ∧ (∀ e ∈ initBaudClockTrace ++ initMC6850Trace, isPinModeEvent e = false)
    ∧ (∀ e ∈ loopsTrace n, isPinModeEvent e = false)
    ∧ (∀ p ∈ busPins, (programTrace n).count (Event.pm p true) = 1)
    ∧ program2Trace n
      = ([Event.pm LED_OUTPUT true] ++ setUartPinsToOutputTrace)
        ++ (initClocksTrace ++ initUartTrace ++ loops2Trace n)
    ∧ (∀ e ∈ [Event.pm LED_OUTPUT true] ++ setUartPinsToOutputTrace, isPinModeEvent e = true)
    ∧ (∀ e ∈ initClocksTrace ++ initUartTrace, isPinModeEvent e = false)
    ∧ (∀ e ∈ loops2Trace n, isPinModeEvent e = false)
    ∧ (∀ p ∈ busPins, (program2Trace n).count (Event.pm p true) = 1) := by
  refine ⟨?_, by decide, by decide, pm_free_loops n, ?_, ?_, by decide, by decide,
    pm_free_loops2 n, ?_⟩
  · simp [programTrace, setupTrace, List.append_assoc]
  · intro p hp
    rw [programTrace, List.count_append, count_pm_loops_zero n p]
    have h1 : setupTrace.count (Event.pm p true) = 1 :=
      (by decide : ∀ q ∈ busPins, setupTrace.count (Event.pm q true) = 1) p hp
    omega
  · simp [program2Trace, setup2Trace, List.append_assoc]
  · intro p hp
    rw [program2Trace, List.count_append, count_pm_loops2_zero n p]
    have h1 : setup2Trace.count (Event.pm p true) = 1 :=
      (by decide : ∀ q ∈ busPins, setup2Trace.count (Event.pm q true) = 1) p hp
    omega

/-- Claim C8: the top-level send operation is stateless across calls:
running it twice in succession on the same message - threading the pin
state left by the first call into the second - yields identical emitted
traces, because the driver never reads a pin (the trace is a function of
the message alone). Likewise for a single writeUart call. -/
theorem send_stateless_identical_traces (str : String) (d : Int) (s : PinState) :
    (runPrintString s str).1 = (runPrintString ((runPrintString s str).2) str).1
    ∧ (runWriteUart s d).1 = (runWriteUart ((runWriteUart s d).2) d).1 :=
  ⟨rfl, rfl⟩

theorem bitRead_emod256 (d : Int) (i : Nat) (h : i < 8) :
    bitRead (d % 256) i = bitRead d i := by
  rw [bitRead, bitRead]
  have heq : (d % 256 / 2 ^ i) % 2 = (d / 2 ^ i) % 2 := by
    interval_cases i <;> first | (norm_num; omega) | norm_num
  rw [heq]

/-- Claim C9: for every integer argument data, including values outside
[0,255], the data-bus write reads only bits 0..7, so the trace of a
register write with argument data equals the trace with argument
data % 256 - the upper bits of the int parameter never affect any line
state. -/
theorem write_trace_depends_only_on_low_byte (d : Int) :
    writeDataBusTrace d = writeDataBusTrace (d % 256)
    ∧ writeUartTrace d = writeUartTrace (d % 256)
    ∧ writeCharToUartTrace d = writeCharToUartTrace (d % 256) := by
  refine ⟨?_, ?_, ?_⟩ <;>
    simp only [writeUartTrace, writeCharToUartTrace, writeDataBusTrace,
      bitRead_emod256 d 0 (by omega), bitRead_emod256 d 1 (by omega),
      bitRead_emod256 d 2 (by omega), bitRead_emod256 d 3 (by omega),
      bitRead_emod256 d 4 (by omega), bitRead_emod256 d 5 (by omega),
      bitRead_emod256 d 6 (by omega), bitRead_emod256 d 7 (by omega)]

/-- Claim C10: on return from a data-register write, the four control
lines are in the same fixed state regardless of the transmitted value -
enable high, read/write low (write), register-select high (data
register), chip-select low (not addressed) - the data lines end at the
bits of the value, and any pin the call never writes keeps its previous
level; this holds for writeUart and writeCharToUart alike. -/
theorem write_final_control_line_state (d : Int) (s : PinState) (p : Nat)
    (hp : p ∉ touchedPins (writeUartTrace d))
    (hp2 : p ∉ touchedPins (writeCharToUartTrace d)) :
    applyTrace (writeUartTrace d) s ENABLE = true
    ∧ applyTrace (writeUartTrace d) s RWN = false
    ∧ applyTrace (writeUartTrace d) s RS = true
    ∧ applyTrace (writeUartTrace d) s CSN = false
    ∧ (∀ i, i < 8 → applyTrace (writeUartTrace d) s (2 + i) = bitRead d i)
    ∧ applyTrace (writeUartTrace d) s p = s p
    ∧ applyTrace (writeCharToUartTrace d) s ENABLE = true
    ∧ applyTrace (writeCharToUartTrace d) s RWN = false
    ∧ applyTrace (writeCharToUartTrace d) s RS = true
    ∧ applyTrace (writeCharToUartTrace d) s CS2N = false
    ∧ (∀ i, i < 8 → applyTrace (writeCharToUartTrace d) s (2 + i) = bitRead d i)
    ∧ applyTrace (writeCharToUartTrace d) s p = s p := by
  refine ⟨?_, ?_, ?_, ?_, ?_, applyTrace_not_touched _ s p hp,
    ?_, ?_, ?_, ?_, ?_, applyTrace_not_touched _ s p hp2⟩ <;>
  first
  | (intro i hi
     interval_cases i <;>
       simp [writeUartTrace, writeCharToUartTrace, writeDataBusTrace, applyTrace, applyEvent,
         ENABLE, RWN, RS, CSN, CS2N, D0, D1, D2, D3, D4, D5, D6, D7])
  | simp [writeUartTrace, writeCharToUartTrace, writeDataBusTrace, applyTrace, applyEvent,
      ENABLE, RWN, RS, CSN, CS2N, D0, D1, D2, D3, D4, D5, D6, D7]

theorem write_final_control_line_state_witness :
    (0 ∉ touchedPins (writeUartTrace 5) ∧ 0 ∉ touchedPins (writeCharToUartTrace 5))
    ∧ (applyTrace (writeUartTrace 5) (fun _ => false) ENABLE = true
       ∧ applyTrace (writeUartTrace 5) (fun _ => false) RWN = false
       ∧ applyTrace (writeUartTrace 5) (fun _ => false) RS = true
       ∧ applyTrace (writeUartTrace 5) (fun _ => false) CSN = false
       ∧ (∀ i, i < 8 → applyTrace (writeUartTrace 5) (fun _ => false) (2 + i) = bitRead 5 i)
       ∧ applyTrace (writeUartTrace 5) (fun _ => false) 0 = (fun _ => false : PinState) 0
       ∧ applyTrace (writeCharToUartTrace 5) (fun _ => false) ENABLE = true
       ∧ applyTrace (writeCharToUartTrace 5) (fun _ => false) RWN = false
       ∧ applyTrace (writeCharToUartTrace 5) (fun _ => false) RS = true
       ∧ applyTrace (writeCharToUartTrace 5) (fun _ => false) CS2N = false
       ∧ (∀ i, i < 8 → applyTrace (writeCharToUartTrace 5) (fun _ => false) (2 + i) = bitRead 5 i)
       ∧ applyTrace (writeCharToUartTrace 5) (fun _ => false) 0 = (fun _ => false : PinState) 0) :=
  ⟨⟨by decide, by decide⟩,
    write_final_control_line_state 5 (fun _ => false) 0 (by decide) (by decide)⟩
